import Mathlib

/-!
Verification of the agentic-ai-system dispatcher core.

Shallow embedding of the repository's core subsystems: the A2A single and
fan-out HTTP clients, the service registry lookup, the LLM router, the
LangGraph pipeline nodes, the session store, the request gateway's session
binding and streaming generator, and the keyword gate.  Effectful steps
(HTTP responses, backend faults, LLM output) are passed in explicitly as
outcome values, so every embedded function is total and executable; the
theorems below settle the specification's claims about these functions.
-/

namespace AgenticAI

/-! ## A2A wire model (src/a2a/models.py) -/

structure ArtifactPart where
  text : String
deriving DecidableEq, Repr

structure Artifact where
  parts : List ArtifactPart
deriving DecidableEq, Repr

/-- Result status of an A2A task: `completed` or `failed`. -/
inductive TaskStatus where
  | completed
  | failed
deriving DecidableEq, Repr

/-- A2AResult wire object: status, artifact list, optional error string. -/
structure A2AResult where
  status : TaskStatus
  artifacts : List Artifact
  error : Option String
deriving DecidableEq, Repr

/-- Python renders `None` as the string "None" inside an f-string. -/
def pyStrOpt : Option String → String
  | none => "None"
  | some s => s

/-! ## A2A single-call client (src/a2a/client.py, call_agent)

The outcome of the HTTP POST is passed in as a sum: a parsed 2xx response,
a timeout, a connect failure, or any other exception (which covers non-2xx
statuses raised by raise_for_status and response-validation errors). -/

inductive CallOutcome where
  | response (r : A2AResult)
  | timeout
  | connectError
  | otherError (msg : String)
deriving DecidableEq, Repr

/-- Embedding of `call_agent`: total on every outcome (the Python function
never raises; every except branch returns a string). -/
def call_agent (endpoint : String) (timeout : Nat) (o : CallOutcome) : String :=
  match o with
  | .response r =>
    if r.status = .failed then
      "Agent at " ++ endpoint ++ " returned error: " ++ pyStrOpt r.error
    else
      match r.artifacts with
      | [] => "Agent returned no output."
      | a :: _ =>
        match a.parts with
        | [] => "Agent returned no output."
        | p :: _ => p.text
  | .timeout => "Agent at " ++ endpoint ++ " timed out after " ++ toString timeout ++ "s."
  | .connectError => "Agent at " ++ endpoint ++ " is unreachable. Check that the service is running."
  | .otherError m => "A2A call to " ++ endpoint ++ " failed: " ++ m

end AgenticAI

namespace AgenticAI

/-- C1: for every endpoint, query, timeout and session id, `call_agent` is a
total function of the outcome (never raises) and returns the string each
outcome determines: the first artifact's first part text on a completed
response whose first artifact has at least one part, the returned-error
message on status failed, the timeout message on timeout, the unreachable
message on connect failure, and a short message naming the endpoint on any
other exception. -/
theorem call_agent_outcome_spec (endpoint : String) (timeout : Nat) :
    (∀ r : A2AResult, ∀ a rest p prest, r.status = .completed →
        r.artifacts = a :: rest → a.parts = p :: prest →
        call_agent endpoint timeout (.response r) = p.text) ∧
    (∀ r : A2AResult, r.status = .failed →
        call_agent endpoint timeout (.response r) =
          "Agent at " ++ endpoint ++ " returned error: " ++ pyStrOpt r.error) ∧
    (call_agent endpoint timeout .timeout =
        "Agent at " ++ endpoint ++ " timed out after " ++ toString timeout ++ "s.") ∧
    (call_agent endpoint timeout .connectError =
        "Agent at " ++ endpoint ++ " is unreachable. Check that the service is running.") ∧
    (∀ m, call_agent endpoint timeout (.otherError m) =
        "A2A call to " ++ endpoint ++ " failed: " ++ m) := by
  refine ⟨?_, ?_, rfl, rfl, fun _ => rfl⟩
  · intro r a rest p prest hs ha hp
    simp only [call_agent, hs, ha, hp]
    rfl
  · intro r hs
    simp only [call_agent, hs]
    rfl

/-- C1 witness: the completed and failed branches evaluated at concrete
inputs through `call_agent_outcome_spec`. -/
theorem call_agent_outcome_spec_witness :
    call_agent "http://kdb-agent:8001" 120
        (.response ⟨.completed, [⟨[⟨"42 rows"⟩]⟩], none⟩) = "42 rows" ∧
    call_agent "http://kdb-agent:8001" 120
        (.response ⟨.failed, [], some "boom"⟩) =
      "Agent at http://kdb-agent:8001 returned error: boom" := by
  constructor
  · exact (call_agent_outcome_spec "http://kdb-agent:8001" 120).1
      ⟨.completed, [⟨[⟨"42 rows"⟩]⟩], none⟩ ⟨[⟨"42 rows"⟩]⟩ [] ⟨"42 rows"⟩ [] rfl rfl rfl
  · exact (call_agent_outcome_spec "http://kdb-agent:8001" 120).2.1
      ⟨.failed, [], some "boom"⟩ rfl

end AgenticAI

namespace AgenticAI

/-! ## Service registry lookup (src/a2a/registry.py)

The DynamoDB read is passed in as an outcome: a backend fault (the code
catches ClientError, BotoCoreError and Exception and returns None), or a
successful point lookup returning the row or nothing. -/

structure RegistryItem where
  endpoint : String
  capabilities : List String
  status : Option String
deriving DecidableEq, Repr

/-- Embedding of `discover_agent`: swallows every backend fault into None. -/
def discover_agent (backend : Except String (Option RegistryItem)) : Option RegistryItem :=
  match backend with
  | .error _ => none
  | .ok item => item

/-- Embedding of `get_endpoint`: live endpoint when the row exists with
status healthy, otherwise the configured fallback. -/
def get_endpoint (backend : Except String (Option RegistryItem)) (fallback : String) : String :=
  match discover_agent backend with
  | some item => if item.status = some "healthy" then item.endpoint else fallback
  | none => fallback

/-- C8: registry resolve returns the registered endpoint exactly when a
registration row exists with status healthy, returns the fallback URL
otherwise, and swallows any backend fault (total function, never raises),
returning the fallback on a fault. -/
theorem get_endpoint_resolve_spec (fallback : String) :
    (∀ e, get_endpoint (.error e) fallback = fallback) ∧
    (get_endpoint (.ok none) fallback = fallback) ∧
    (∀ item : RegistryItem, item.status = some "healthy" →
        get_endpoint (.ok (some item)) fallback = item.endpoint) ∧
    (∀ item : RegistryItem, item.status ≠ some "healthy" →
        get_endpoint (.ok (some item)) fallback = fallback) := by
  refine ⟨fun _ => rfl, rfl, ?_, ?_⟩
  · intro item h
    simp [get_endpoint, discover_agent, h]
  · intro item h
    simp [get_endpoint, discover_agent, h]

/-- C8 witness: a healthy row resolves to its endpoint; an unhealthy row and
a backend fault resolve to the fallback. -/
theorem get_endpoint_resolve_spec_witness :
    get_endpoint (.ok (some ⟨"http://kdb-agent:8001", [], some "healthy"⟩))
        "http://fallback:1" = "http://kdb-agent:8001" ∧
    get_endpoint (.ok (some ⟨"http://kdb-agent:8001", [], some "stale"⟩))
        "http://fallback:1" = "http://fallback:1" ∧
    get_endpoint (.error "boto down") "http://fallback:1" = "http://fallback:1" :=
  ⟨(get_endpoint_resolve_spec "http://fallback:1").2.2.1
      ⟨"http://kdb-agent:8001", [], some "healthy"⟩ rfl,
   (get_endpoint_resolve_spec "http://fallback:1").2.2.2
      ⟨"http://kdb-agent:8001", [], some "stale"⟩ (by decide),
   (get_endpoint_resolve_spec "http://fallback:1").1 "boto down"⟩

end AgenticAI

namespace AgenticAI

/-! ## Keyword gate (src/agents/orchestrator.py)

Python `str.lower` is modelled character-wise, and `kw in q_lower`
(substring containment) by an executable scan over character lists. -/

/-- Character-wise lowercase, the model of Python `str.lower()`. -/
def py_lower (s : String) : String := ⟨s.data.map Char.toLower⟩

/-- Does `needle` stand at the head of `hay`? -/
def atHead (needle hay : List Char) : Bool :=
  match needle, hay with
  | [], _ => true
  | _ :: _, [] => false
  | c :: cs, d :: ds => c == d && atHead cs ds

/-- Does `needle` occur contiguously anywhere inside `hay`?  The model of
Python `needle in hay` on strings. -/
def occursIn (needle : List Char) : List Char → Bool
  | [] => needle.isEmpty
  | c :: rest => atHead needle (c :: rest) || occursIn needle rest

theorem atHead_iff (needle hay : List Char) :
    atHead needle hay = true ↔ ∃ t, needle ++ t = hay := by
  induction needle generalizing hay with
  | nil => simp [atHead]
  | cons c cs ih =>
    cases hay with
    | nil => simp [atHead]
    | cons d ds =>
      simp only [atHead, Bool.and_eq_true, beq_iff_eq, ih]
      constructor
      · rintro ⟨rfl, t, rfl⟩
        exact ⟨t, rfl⟩
      · rintro ⟨t, h⟩
        injection h with h1 h2
        exact ⟨h1, t, h2⟩

theorem occursIn_iff (needle hay : List Char) :
    occursIn needle hay = true ↔ ∃ s t, s ++ needle ++ t = hay := by
  induction hay with
  | nil =>
    simp only [occursIn, List.isEmpty_iff]
    constructor
    · rintro rfl
      exact ⟨[], [], rfl⟩
    · rintro ⟨s, t, h⟩
      rcases List.append_eq_nil.mp h with ⟨h1, h2⟩
      exact (List.append_eq_nil.mp h1).2
    | cons c rest ih =>
      simp only [occursIn, Bool.or_eq_true, atHead_iff, ih]
      constructor
      · rintro (⟨t, h⟩ | ⟨s, t, h⟩)
        · exact ⟨[], t, by simpa using h⟩
        · exact ⟨c :: s, t, by simp [h]⟩
      · rintro ⟨s, t, h⟩
        cases s with
        | nil => exact Or.inl ⟨t, by simpa using h⟩
        | cons c' s' =>
          injection h with h1 h2
          exact Or.inr ⟨s', t, h2⟩

/-- The compiled keyword set of the fast financial/general gate. -/
def _FINANCIAL_KEYWORDS : List String := [
  "bond", "rfq", "trader", "trading", "desk", "hy", "ig", "em", "rates",
  "spread", "bps", "basis point", "hit rate", "notional", "yield", "coupon",
  "isin", "cusip", "position", "order",
  "live", "real-time", "realtime", "current price", "market data", "market-data",
  "bid", "ask", "mid price", "quote", "pnl", "mark to market", "mtm",
  "intraday", "today", "right now", "current position",
  "amps", "sow", "subscribe", "pub/sub", "topic", "publish", "state of world",
  "kdb", "historical", "history", "6 month", "last month", "last quarter",
  "best trader", "top trader", "strategy", "performance"]

/-- Embedding of `_is_financial_query`: lowercase the query, then test each
keyword for substring membership. -/
def _is_financial_query (query : String) : Bool :=
  _FINANCIAL_KEYWORDS.any (fun kw => occursIn kw.data (py_lower query).data)

/-- C9: the keyword gate is a pure deterministic function of the query text:
it answers true exactly when some compiled keyword occurs as a contiguous
substring of the lowercased query, repeated calls agree, and two queries
with the same lowercasing (in particular, queries differing only in letter
case) get equal answers. -/
theorem is_financial_query_gate_spec :
    (∀ q : String, _is_financial_query q = _is_financial_query q) ∧
    (∀ q : String, _is_financial_query q = true ↔
        ∃ kw ∈ _FINANCIAL_KEYWORDS, ∃ s t, s ++ kw.data ++ t = (py_lower q).data) ∧
    (∀ q q' : String, py_lower q = py_lower q' →
        _is_financial_query q = _is_financial_query q') := by
  refine ⟨fun _ => rfl, ?_, ?_⟩
  · intro q
    simp [_is_financial_query, List.any_eq_true, occursIn_iff]
  · intro q q' h
    simp [_is_financial_query, h]

/-- C9 witness: two case-variants of one query have equal lowercasings, so
the gate answers the same on both; evaluation shows the common answer. -/
theorem is_financial_query_gate_spec_witness :
    py_lower "Top HY Traders TODAY" = py_lower "top hy traders today" ∧
    _is_financial_query "Top HY Traders TODAY" = _is_financial_query "top hy traders today" ∧
    _is_financial_query "top hy traders today" = true :=
  ⟨by decide,
   is_financial_query_gate_spec.2.2 "Top HY Traders TODAY" "top hy traders today" (by decide),
   by decide⟩

end AgenticAI

namespace AgenticAI

/-! ## LLM router (src/agents/llm_router.py)

The single Haiku completion plus the JSON parse of its reply is passed in
as an outcome of the rendered catalogue: `failure` stands for any exception
inside the try block (network error, json.loads error, a non-object reply),
`parsed` for a decoded JSON object whose three fields may be absent. -/

/-- One registry row as the router sees it: id and capability tags. -/
structure RegisteredAgent where
  agent_id : String
  capabilities : List String
deriving DecidableEq, Repr

/-- Modelled from the spec: `list_all()` of the service registry (spec 4.B).
The source's `src.a2a.registry` defines no `list_all_agents`, although
`route_query` imports it by that name; the spec says it returns the
sequence of registered workers and that a backend fault is swallowed with
an empty result.  The backend outcome is an explicit argument here. -/
def list_all_agents (backend : Except String (List RegisteredAgent)) : List RegisteredAgent :=
  match backend with
  | .error _ => []
  | .ok rows => rows

/-- Fallback worker when DynamoDB is empty or the router fails. -/
def _FALLBACK_AGENT : String := "kdb-agent"

/-- The curated static description table of `llm_router.py`. -/
def _AGENT_DESCRIPTIONS : List (String × String) := [
  ("kdb-agent", "Historical Bond RFQ analytics: trader rankings, hit rates, spreads, desk performance (HY/IG/EM/RATES), 6-month history"),
  ("amps-agent", "Live real-time AMPS data (State-of-World): current orders, live positions, market quotes, intraday P&L, portfolio NAV (portfolio_nav topic), CDS spreads tick-by-tick (cds_spreads topic), ETF NAV and flows (etf_nav topic), VaR/DV01/CS01 risk metrics (risk_metrics topic). Use for 'ahora mismo', 'en tiempo real', 'actual', 'live', 'current' queries."),
  ("portfolio-agent", "Portfolio holdings and exposure: positions, weights, concentration, cost basis, duration by portfolio (HY_MAIN, IG_CORE, EM_BLEND, RATES_GOV, MULTI_STRAT)"),
  ("cds-agent", "Credit Default Swap market data: CDS spreads by tenor (1/3/5/7/10y), term structures, credit curve screener for 50 entities"),
  ("etf-agent", "ETF analytics: NAV, AUM, creation/redemption flows, basket composition, premium/discount for HY/IG/EM/RATES ETFs (HYG, LQD, JNK, etc.)"),
  ("risk-pnl-agent", "Cross-cutting risk and P&L: VaR, DV01, CS01 computed from live portfolio positions + market spreads; P&L attribution by desk/trader"),
  ("financial-orchestrator", "Multi-source financial synthesis: combines KDB historical + AMPS live data for complex queries needing both sources")]

/-- The ids of the static description table, the router's known set. -/
def known_agent_ids : List String := _AGENT_DESCRIPTIONS.map Prod.fst

/-- The ids enumerated in the prompt's catalogue block: the registry rows
filtered to the static table when the registry returned any, the static
table's ids otherwise.  Feeds only the prompt text, never the validation. -/
def prompt_catalogue (registry : Except String (List RegisteredAgent)) : List String :=
  let active := list_all_agents registry
  if active.isEmpty then known_agent_ids
  else (active.map (fun a => a.agent_id)).filter (fun a => known_agent_ids.contains a)

/-- The router's output object. -/
structure RouterDecision where
  agents : List String
  strategy : String
  reasoning : String
  fallback_used : Bool
deriving DecidableEq, Repr

/-- Outcome of the LLM call plus JSON decoding, as a function of the
catalogue rendered into the prompt. -/
inductive LlmOutcome where
  | failure (msg : String)
  | parsed (agents : Option (List String)) (strategy : Option String) (reasoning : Option String)
deriving DecidableEq, Repr

/-- Embedding of `route_query`: the registry read feeds the prompt only;
the decoded reply is validated against the static table, an empty
validated list is replaced by the fallback worker, and any exception in
the LLM/parse stage yields the fallback decision. -/
def route_query (registry : Except String (List RegisteredAgent))
    (llm : List String → LlmOutcome) : RouterDecision :=
  match llm (prompt_catalogue registry) with
  | .failure _ =>
      { agents := [_FALLBACK_AGENT], strategy := "parallel",
        reasoning := "fallback", fallback_used := true }
  | .parsed agents? strategy? reasoning? =>
      let agents := agents?.getD [_FALLBACK_AGENT]
      let strategy := strategy?.getD "parallel"
      let reasoning := reasoning?.getD ""
      let validated := agents.filter (fun a => known_agent_ids.contains a)
      let final := if validated.isEmpty then [_FALLBACK_AGENT] else validated
      { agents := final, strategy := strategy, reasoning := reasoning, fallback_used := false }

/-- C2 counterexample: a failing registry read does not produce the
fallback decision.  With the registry read raising and the LLM reply
parsing fine, `route_query` returns that reply's decision with
`fallback_used = false`, contradicting the claim that a registry-read
failure returns a fallback RouterDecision with `fallback_used = true`. -/
theorem route_query_registry_failure_no_fallback :
    (route_query (.error "registry unavailable")
        (fun _ => .parsed (some ["etf-agent"]) (some "parallel") (some "flows"))).fallback_used
      = false ∧
    (route_query (.error "registry unavailable")
        (fun _ => .parsed (some ["etf-agent"]) (some "parallel") (some "flows"))).agents
      = ["etf-agent"] := by
  constructor <;> rfl

/-- C2 (amended): `route_query` never raises (it is total here; the only
source-level exception path, the missing `list_all_agents`, is modelled
from the spec); a registry-read failure is swallowed and routing proceeds
on the static descriptions, while a failure of the LLM call or of the JSON
decode yields the fallback RouterDecision with `fallback_used = true`, the
single default worker kdb-agent and strategy parallel; and on every run
the returned agents list is a non-empty subset of the static description
table's keys (an empty validated list is replaced by the default). -/
theorem route_query_fallback_and_validation
    (registry : Except String (List RegisteredAgent)) (llm : List String → LlmOutcome) :
    (∀ m, llm (prompt_catalogue registry) = .failure m →
        route_query registry llm =
          { agents := ["kdb-agent"], strategy := "parallel",
            reasoning := "fallback", fallback_used := true }) ∧
    (route_query registry llm).agents ≠ [] ∧
    (∀ a ∈ (route_query registry llm).agents, a ∈ known_agent_ids) := by
  have hkdb : "kdb-agent" ∈ known_agent_ids := by decide
  refine ⟨?_, ?_⟩
  · intro m hm
    simp only [route_query, hm, _FALLBACK_AGENT]
  · cases h : llm (prompt_catalogue registry) with
    | failure m =>
      refine ⟨by simp [route_query, h, _FALLBACK_AGENT], ?_⟩
      intro a ha
      simp only [route_query, h, List.mem_singleton] at ha
      exact ha ▸ hkdb
    | parsed agents? strategy? reasoning? =>
      simp only [route_query, h]
      cases hfl : (agents?.getD [_FALLBACK_AGENT]).filter (fun a => known_agent_ids.contains a) with
      | nil =>
        refine ⟨by simp, ?_⟩
        intro a ha
        simp only [List.isEmpty_nil, if_true, List.mem_singleton] at ha
        exact ha ▸ hkdb
      | cons b bs =>
        refine ⟨by simp, ?_⟩
        intro a ha
        simp only [List.isEmpty_cons, Bool.false_eq_true, if_false] at ha
        have hmem : a ∈ (agents?.getD [_FALLBACK_AGENT]).filter
            (fun a => known_agent_ids.contains a) := hfl ▸ ha
        simpa using (List.mem_filter.mp hmem).2

/-- C2 witness: the fallback branch applied at a concrete failing LLM
outcome, and the validation facts applied at a successful one. -/
theorem route_query_fallback_and_validation_witness :
    route_query (.ok [⟨"kdb-agent", ["rfq"]⟩]) (fun _ => .failure "timeout") =
      { agents := ["kdb-agent"], strategy := "parallel",
        reasoning := "fallback", fallback_used := true } ∧
    "etf-agent" ∈ known_agent_ids :=
  ⟨(route_query_fallback_and_validation (.ok [⟨"kdb-agent", ["rfq"]⟩])
      (fun _ => .failure "timeout")).1 "timeout" rfl,
   (route_query_fallback_and_validation (.error "down")
      (fun _ => .parsed (some ["etf-agent"]) none none)).2.2 "etf-agent" (by decide)⟩

end AgenticAI

namespace AgenticAI

/-! ## Fan-out client (src/a2a/parallel_client.py) and merger
(src/agents/orchestrator.py, _merge_parallel_results)

Each launched task either finishes with a `call_agent` outcome or is
returned as an exception by `asyncio.gather(..., return_exceptions=True)`;
both are per-id inputs here.  The Python result dict is modelled as an
insertion-ordered association list with last-assignment-wins updates. -/

inductive GatherOutcome where
  | exn (msg : String)
  | finished (o : CallOutcome)
deriving DecidableEq, Repr

/-- What lands in the per-agent slot of the result map. -/
def single_result (agent_id endpoint : String) (timeout : Nat) : GatherOutcome → String
  | .exn m => "[" ++ agent_id ++ " error: " ++ m ++ "]"
  | .finished o => call_agent endpoint timeout o

/-- Python dict assignment `d[k] = v`: overwrite in place or append. -/
def dict_insert (d : List (String × String)) (k v : String) : List (String × String) :=
  if d.any (fun p => p.1 == k) then
    d.map (fun p => if p.1 == k then (k, v) else p)
  else d ++ [(k, v)]

/-- Embedding of `call_agents_parallel`: the result dict built by zipping
the input id list with the gathered outcomes in input order. -/
def call_agents_parallel (agent_ids : List String) (endpoint : String → String)
    (timeout : Nat) (outcome : String → GatherOutcome) : List (String × String) :=
  agent_ids.foldl
    (fun d i => dict_insert d i (single_result i (endpoint i) timeout (outcome i))) []

/-- Python `str.title()` character-wise: the first letter of each alpha run
upper-cased, the rest lower-cased. -/
def py_title_aux : List Char → Bool → List Char
  | [], _ => []
  | c :: rest, prevAlpha =>
    (if c.isAlpha then (if prevAlpha then c.toLower else c.toUpper) else c) ::
      py_title_aux rest c.isAlpha

def py_title (s : String) : String := ⟨py_title_aux s.data false⟩

/-- Python `agent_id.replace("-", " ")` for the single-character pattern. -/
def py_replace_dash (s : String) : String :=
  ⟨s.data.map (fun c => if c = '-' then ' ' else c)⟩

/-- Section header of one worker in the merged response. -/
def worker_header (agent_id : String) : String := py_title (py_replace_dash agent_id)

/-- Embedding of `_merge_parallel_results`. -/
def _merge_parallel_results (query : String) (results : List (String × String)) : String :=
  let sections := results.map (fun p => "## " ++ worker_header p.1 ++ "\n\n" ++ p.2)
  "# Multi-Source Financial Analysis\n\nQuery: " ++ query ++ "\n\n" ++
    String.intercalate "\n\n---\n\n" sections

theorem ne_empty_of_data {s : String} (h : s.data ≠ []) : s ≠ "" :=
  fun he => h (he ▸ rfl)

theorem data_append_ne_nil (a b : String) (h : a.data ≠ []) : (a ++ b).data ≠ [] := by
  rw [String.data_append]
  exact fun hc => h (List.append_eq_nil.mp hc).1

/-- Every failure mode of a single fan-out slot yields a non-empty string;
the only other case is the success text of a completed response. -/
theorem single_result_ne_empty_or_success (agent_id endpoint : String) (timeout : Nat)
    (g : GatherOutcome) :
    single_result agent_id endpoint timeout g ≠ "" ∨
    ∃ r a rest p prest, g = .finished (.response r) ∧ r.status = .completed ∧
      r.artifacts = a :: rest ∧ a.parts = p :: prest ∧
      single_result agent_id endpoint timeout g = p.text := by
  cases g with
  | exn m =>
    left
    apply ne_empty_of_data
    repeat apply data_append_ne_nil
    decide
  | finished o =>
    cases o with
    | response r =>
      cases hs : r.status with
      | failed =>
        left
        simp only [single_result, call_agent, hs, if_pos]
        apply ne_empty_of_data
        repeat apply data_append_ne_nil
        decide
      | completed =>
        cases ha : r.artifacts with
        | nil =>
          left
          simp only [single_result, call_agent, hs, ha]
          rw [if_neg (by decide : ¬(TaskStatus.completed = TaskStatus.failed))]
          decide
        | cons a rest =>
          cases hp : a.parts with
          | nil =>
            left
            simp only [single_result, call_agent, hs, ha, hp]
            rw [if_neg (by decide : ¬(TaskStatus.completed = TaskStatus.failed))]
            decide
          | cons p prest =>
            right
            refine ⟨r, a, rest, p, prest, rfl, hs, ha, hp, ?_⟩
            simp only [single_result, call_agent, hs, ha, hp]
            rfl
    | timeout =>
      left
      apply ne_empty_of_data
      repeat apply data_append_ne_nil
      decide
    | connectError =>
      left
      apply ne_empty_of_data
      repeat apply data_append_ne_nil
      decide
    | otherError m =>
      left
      apply ne_empty_of_data
      repeat apply data_append_ne_nil
      decide

theorem dict_insert_fresh (d : List (String × String)) (k v : String)
    (h : ∀ p ∈ d, p.1 ≠ k) : dict_insert d k v = d ++ [(k, v)] := by
  have hany : d.any (fun p => p.1 == k) = false := by
    rw [List.any_eq_false]
    intro p hp
    simpa using h p hp
  simp [dict_insert, hany]

theorem foldl_dict_insert (f : String → String) (ids : List String) :
    ids.Nodup → ∀ acc : List (String × String), (∀ i ∈ ids, ∀ p ∈ acc, p.1 ≠ i) →
      ids.foldl (fun d i => dict_insert d i (f i)) acc = acc ++ ids.map (fun i => (i, f i)) := by
  induction ids with
  | nil => intro _ acc _; simp
  | cons i is ih =>
    intro hnd acc hfresh
    have hstep : dict_insert acc i (f i) = acc ++ [(i, f i)] :=
      dict_insert_fresh acc i (f i) (fun p hp => hfresh i (List.mem_cons_self i is) p hp)
    simp only [List.foldl_cons, hstep]
    rw [ih (List.Nodup.of_cons hnd) (acc ++ [(i, f i)]) ?_]
    · simp
    · intro j hj p hp
      rcases List.mem_append.mp hp with hpa | hpb
      · exact hfresh j (List.mem_cons_of_mem i hj) p hpa
      · have hpi : p = (i, f i) := by simpa using hpb
        have hni : i ∉ is := (List.nodup_cons.mp hnd).1
        subst hpi
        intro hc
        have hij : i = j := hc
        exact hni (hij.symm ▸ hj)

/-- C3 counterexample: the claim fails as stated.  With the duplicated
input list [kdb-agent, kdb-agent] (K = 2) and both calls succeeding, the
returned map has one entry, not two; and a worker whose completed response
carries the empty text gives the map an empty-string value. -/
theorem call_agents_parallel_duplicate_and_empty_counterexample :
    (call_agents_parallel ["kdb-agent", "kdb-agent"] (fun _ => "http://kdb:1") 120
        (fun _ => .finished (.response ⟨.completed, [⟨[⟨"ok"⟩]⟩], none⟩))).length ≠ 2 ∧
    call_agents_parallel ["etf-agent"] (fun _ => "http://etf:1") 120
        (fun _ => .finished (.response ⟨.completed, [⟨[⟨""⟩]⟩], none⟩)) =
      [("etf-agent", "")] := by
  constructor
  · decide
  · rfl

/-- C3 (amended): for every list of K distinct agent ids, of which any
subset of calls fail, the fan-out returns a map with exactly K entries,
keyed by the input ids in input order; each entry's value is the
corresponding single-call string, which is non-empty for every failure
mode (only a completed response's own text can be empty); and the merged
response contains exactly K "## worker title" sections in the order of the
input id list, not completion order. -/
theorem call_agents_parallel_fanout_spec (agent_ids : List String)
    (endpoint : String → String) (timeout : Nat) (outcome : String → GatherOutcome)
    (query : String) (hnd : agent_ids.Nodup) :
    call_agents_parallel agent_ids endpoint timeout outcome =
      agent_ids.map (fun i => (i, single_result i (endpoint i) timeout (outcome i))) ∧
    (call_agents_parallel agent_ids endpoint timeout outcome).length = agent_ids.length ∧
    (∀ i ∈ agent_ids,
        single_result i (endpoint i) timeout (outcome i) ≠ "" ∨
        ∃ r a rest p prest, outcome i = .finished (.response r) ∧ r.status = .completed ∧
          r.artifacts = a :: rest ∧ a.parts = p :: prest ∧
          single_result i (endpoint i) timeout (outcome i) = p.text) ∧
    _merge_parallel_results query (call_agents_parallel agent_ids endpoint timeout outcome) =
      "# Multi-Source Financial Analysis\n\nQuery: " ++ query ++ "\n\n" ++
        String.intercalate "\n\n---\n\n"
          (agent_ids.map (fun i =>
            "## " ++ worker_header i ++ "\n\n" ++
              single_result i (endpoint i) timeout (outcome i))) := by
  have hmap : call_agents_parallel agent_ids endpoint timeout outcome =
      agent_ids.map (fun i => (i, single_result i (endpoint i) timeout (outcome i))) := by
    have := foldl_dict_insert (fun i => single_result i (endpoint i) timeout (outcome i))
      agent_ids hnd [] (by intro i _ p hp; cases hp)
    simpa [call_agents_parallel] using this
  refine ⟨hmap, ?_, ?_, ?_⟩
  · rw [hmap, List.length_map]
  · intro i _
    exact single_result_ne_empty_or_success i (endpoint i) timeout (outcome i)
  · rw [hmap]
    simp only [_merge_parallel_results, List.map_map]
    rfl

/-- C3 witness: one successful worker and one timed-out worker, distinct
ids: the theorem applied there gives the two-entry map in input order and
the merged response with the two sections. -/
theorem call_agents_parallel_fanout_spec_witness :
    call_agents_parallel ["etf-agent", "portfolio-agent"]
        (fun i => if i = "etf-agent" then "http://etf:1" else "http://pf:1") 5
        (fun i => if i = "etf-agent"
          then .finished (.response ⟨.completed, [⟨[⟨"ETF text"⟩]⟩], none⟩)
          else .finished .timeout) =
      [("etf-agent", "ETF text"),
       ("portfolio-agent", "Agent at http://pf:1 timed out after 5s.")] := by
  rw [(call_agents_parallel_fanout_spec ["etf-agent", "portfolio-agent"]
    (fun i => if i = "etf-agent" then "http://etf:1" else "http://pf:1") 5
    (fun i => if i = "etf-agent"
      then .finished (.response ⟨.completed, [⟨[⟨"ETF text"⟩]⟩], none⟩)
      else .finished .timeout)
    "exposure en HY bonds y flujos de ETFs" (by decide)).1]
  rfl

end AgenticAI

namespace AgenticAI

/-! ## Pipeline graph nodes (src/graph/nodes.py) and retriever
(src/rag/retriever.py)

The retriever call and the orchestrator call inside the nodes' try blocks
are passed in as outcomes; each node is the state transformer obtained by
merging its returned update dict into the state, per LangGraph. -/

/-- Python string truthiness for the state's error slot: None and the empty
string are falsy. -/
def truthy : Option String → Bool
  | none => false
  | some s => s != ""

/-- Python `str.strip()` on ASCII whitespace. -/
def py_strip (s : String) : String :=
  ⟨((s.data.dropWhile Char.isWhitespace).reverse.dropWhile Char.isWhitespace).reverse⟩

/-- One retrieved chunk: text, source tag, distance. -/
structure Doc where
  text : String
  source : String
  distance : Rat
deriving DecidableEq, Repr

/-- The LangGraph state dict of src/graph/state.py. -/
structure AgentState where
  query : String
  rag_context : Option (List Doc)
  research : Option String
  synthesis : Option String
  final_response : Option String
  error : Option String
deriving DecidableEq, Repr

/-- Orchestrator result (src/agents/orchestrator.py, OrchestratorResult). -/
structure OrchestratorResult where
  research : String
  synthesis : String
  route : String
deriving DecidableEq, Repr

/-- Embedding of `intake_node`. -/
def intake_node (s : AgentState) : AgentState :=
  let q := py_strip s.query
  if q = "" then
    { s with error := some "Empty query received.",
             final_response := some "Please provide a question." }
  else { s with query := q, error := none }

/-- Embedding of `retrieve_node`; `ret` is the outcome of
`get_retriever().retrieve(query)` inside the node's try block. -/
def retrieve_node (ret : Except String (List Doc)) (s : AgentState) : AgentState :=
  if truthy s.error then s
  else
    match ret with
    | .ok docs => { s with rag_context := some docs }
    | .error e =>
      { s with error := some ("RAG retrieval failed: " ++ e),
               rag_context := some [] }

/-- Embedding of `strands_node`; `orch` is the outcome of
`run_strands_orchestrator` inside the node's try block (the error string
carries the exception text and traceback). -/
def strands_node (orch : Except String OrchestratorResult) (s : AgentState) : AgentState :=
  if truthy s.error then s
  else
    match orch with
    | .ok r => { s with research := some r.research, synthesis := some r.synthesis }
    | .error e => { s with error := some ("Strands agents failed: " ++ e) }

/-- Insertion into an ascending duplicate-free list, the model of Python
`sorted(set)` built below. -/
def insert_sorted (x : String) : List String → List String
  | [] => [x]
  | y :: ys =>
    if x = y then y :: ys
    else if x < y then x :: y :: ys
    else y :: insert_sorted x ys

def sorted_unique (l : List String) : List String := l.foldr insert_sorted []

/-- The sources footer of `format_node`: unique non-empty source tags,
sorted, joined by " | ". -/
def sources_block (rag : List Doc) : String :=
  let uniq := sorted_unique
    (rag.filterMap (fun d => if d.source = "" then none else some d.source))
  if uniq = [] then "" else "\n\n---\n**Sources:** " ++ String.intercalate " | " uniq

/-- Embedding of `format_node`. -/
def format_node (s : AgentState) : AgentState :=
  if truthy s.error then { s with final_response := some ("Error: " ++ s.error.getD "") }
  else
    { s with
        final_response := some (s.synthesis.getD "" ++ sources_block (s.rag_context.getD [])) }

/-- The initial state of `run_query` (src/graph/workflow.py). -/
def initial_state (query : String) : AgentState :=
  { query := query, rag_context := none, research := none, synthesis := none,
    final_response := none, error := none }

/-- The compiled linear graph: intake, retrieve, strands, format. -/
def run_pipeline (ret : Except String (List Doc)) (orch : Except String OrchestratorResult)
    (query : String) : AgentState :=
  format_node (strands_node orch (retrieve_node ret (intake_node (initial_state query))))

end AgenticAI

namespace AgenticAI

theorem truthy_some_iff (x : String) : truthy (some x) = true ↔ x ≠ "" := by
  simp [truthy]

theorem retrieve_node_skip (ret : Except String (List Doc)) (s : AgentState)
    (h : truthy s.error = true) : retrieve_node ret s = s := by
  simp [retrieve_node, h]

theorem strands_node_skip (orch : Except String OrchestratorResult) (s : AgentState)
    (h : truthy s.error = true) : strands_node orch s = s := by
  simp [strands_node, h]

theorem format_node_error (s : AgentState) (e : String) (hs : s.error = some e)
    (hne : e ≠ "") : (format_node s).final_response = some ("Error: " ++ e) := by
  have ht : truthy (some e) = true := (truthy_some_iff e).mpr hne
  simp [format_node, hs, ht]

theorem format_node_ok (s : AgentState) (h : truthy s.error = false) :
    (format_node s).final_response =
      some (s.synthesis.getD "" ++ sources_block (s.rag_context.getD [])) := by
  simp [format_node, h]

/-- C4: in every pipeline run, once a node has set the error field, the
final response produced by the format node is "Error: " followed by that
error (so it starts with the literal prefix "Error: "); in particular an
empty or all-whitespace query makes intake set the error, both downstream
nodes pass the state through unchanged (no updates), and the final
response is exactly "Error: Empty query received.". -/
theorem pipeline_error_prefix_spec (query : String)
    (ret : Except String (List Doc)) (orch : Except String OrchestratorResult) :
    (∀ e, (strands_node orch (retrieve_node ret (intake_node (initial_state query)))).error
          = some e →
        e ≠ "" ∧ (run_pipeline ret orch query).final_response = some ("Error: " ++ e)) ∧
    (py_strip query = "" →
        (intake_node (initial_state query)).error = some "Empty query received." ∧
        retrieve_node ret (intake_node (initial_state query)) =
          intake_node (initial_state query) ∧
        strands_node orch (retrieve_node ret (intake_node (initial_state query))) =
          intake_node (initial_state query) ∧
        (run_pipeline ret orch query).final_response =
          some ("Error: Empty query received.")) := by
  by_cases hq : py_strip query = ""
  · have hs1 : intake_node (initial_state query) =
        { query := query, rag_context := none, research := none, synthesis := none,
          final_response := some "Please provide a question.",
          error := some "Empty query received." } := by
      simp [intake_node, initial_state, hq]
    have ht1 : truthy (intake_node (initial_state query)).error = true := by
      rw [hs1]
      rfl
    have h2 : retrieve_node ret (intake_node (initial_state query)) =
        intake_node (initial_state query) := retrieve_node_skip ret _ ht1
    have h3 : strands_node orch (retrieve_node ret (intake_node (initial_state query))) =
        intake_node (initial_state query) := by rw [h2]; exact strands_node_skip orch _ ht1
    constructor
    · intro e he
      rw [h3, hs1] at he
      simp only [Option.some.injEq] at he
      subst he
      refine ⟨by decide, ?_⟩
      unfold run_pipeline
      rw [h3]
      exact format_node_error _ _ (by rw [hs1]) (by decide)
    · intro _
      refine ⟨by rw [hs1], h2, h3, ?_⟩
      unfold run_pipeline
      rw [h3]
      exact format_node_error _ _ (by rw [hs1]) (by decide)
  · have hs1 : intake_node (initial_state query) =
        { query := py_strip query, rag_context := none, research := none, synthesis := none,
          final_response := none, error := none } := by
      simp [intake_node, initial_state, hq]
    refine ⟨?_, fun hc => absurd hc hq⟩
    intro e he
    cases ret with
    | ok docs =>
      have h2 : retrieve_node (.ok docs) (intake_node (initial_state query)) =
          { query := py_strip query, rag_context := some docs, research := none,
            synthesis := none, final_response := none, error := none } := by
        rw [hs1]; rfl
      cases orch with
      | ok r =>
        rw [show strands_node (.ok r) (retrieve_node (.ok docs) (intake_node (initial_state query)))
              = { query := py_strip query, rag_context := some docs,
                  research := some r.research, synthesis := some r.synthesis,
                  final_response := none, error := none } by rw [h2]; rfl] at he
        exact Option.noConfusion he
      | error eo =>
        have h3 : strands_node (.error eo) (retrieve_node (.ok docs) (intake_node (initial_state query)))
            = { query := py_strip query, rag_context := some docs, research := none,
                synthesis := none, final_response := none,
                error := some ("Strands agents failed: " ++ eo) } := by
          rw [h2]; rfl
        rw [h3] at he
        simp only [Option.some.injEq] at he
        subst he
        have hne : ("Strands agents failed: " ++ eo) ≠ "" :=
          ne_empty_of_data (data_append_ne_nil _ _ (by decide))
        refine ⟨hne, ?_⟩
        unfold run_pipeline
        rw [h3]
        exact format_node_error _ _ rfl hne
    | error er =>
      have h2 : retrieve_node (.error er) (intake_node (initial_state query)) =
          { query := py_strip query, rag_context := some [], research := none,
            synthesis := none, final_response := none,
            error := some ("RAG retrieval failed: " ++ er) } := by
        rw [hs1]; rfl
      have hne : ("RAG retrieval failed: " ++ er) ≠ "" :=
        ne_empty_of_data (data_append_ne_nil _ _ (by decide))
      have h3 : strands_node orch (retrieve_node (.error er) (intake_node (initial_state query)))
          = retrieve_node (.error er) (intake_node (initial_state query)) := by
        apply strands_node_skip
        rw [h2]
        exact (truthy_some_iff _).mpr hne
      rw [h3, h2] at he
      simp only [Option.some.injEq] at he
      subst he
      refine ⟨hne, ?_⟩
      unfold run_pipeline
      rw [h3, h2]
      exact format_node_error _ _ rfl hne

/-- C4 witness: the all-whitespace query "   " with a successful retrieval
and a successful orchestrator run: intake sets the error, the downstream
nodes are no-ops, and the final response is "Error: Empty query received.",
which the error branch of the first conjunct reproduces. -/
theorem pipeline_error_prefix_spec_witness :
    (run_pipeline (.ok []) (.ok ⟨"r", "s", "general"⟩) "   ").final_response =
      some ("Error: " ++ "Empty query received.") :=
  ((pipeline_error_prefix_spec "   " (.ok []) (.ok ⟨"r", "s", "general"⟩)).1
    "Empty query received." (by decide)).2

end AgenticAI

namespace AgenticAI

/-! ## Retriever degradation (src/rag/retriever.py, RAGRetriever.retrieve)

Inside `retrieve` only the `self._client.search` call is wrapped in a
try/except; the embedding call `self._model.encode` before it and the
hit-processing loop over the response after it stand outside, so an
exception there propagates out of `retrieve` into the node's try block.
Both raisable steps are explicit outcomes here, and the function returns
an Except value whose error case is such an escaping exception. -/

/-- One raw OpenSearch k-NN hit: the `_source` fields are read with `.get`
and defaults (never raising); a hit without `_score` raises KeyError. -/
structure SearchHit where
  text : String
  source : String
  score : Option Rat
deriving DecidableEq, Repr

/-- The raw search response; a response missing the hits list makes the
loop header raise KeyError. -/
structure SearchResponse where
  hits : Option (List SearchHit)
deriving DecidableEq, Repr

/-- Embedding of `RAGRetriever.retrieve`: empty when the retriever marked
itself unavailable at construction; an exception of the embedding call
propagates; a search exception is caught and yields empty; the
hit-processing loop converts hits to docs with distance 1 - score and
propagates a KeyError on a malformed response or hit. -/
def rag_retrieve (available : Bool) (encode : Except String Unit)
    (search : Except String SearchResponse) : Except String (List Doc) :=
  if available = false then Except.ok []
  else
    match encode with
    | .error e => .error e
    | .ok _ =>
      match search with
      | .error _ => .ok []
      | .ok resp =>
        match resp.hits with
        | none => .error "KeyError: hits"
        | some hits =>
          hits.mapM (fun h =>
            match h.score with
            | none => Except.error "KeyError: _score"
            | some sc => Except.ok ⟨h.text, h.source, 1 - sc⟩)

/-- C7 counterexample: a retriever failure during the retrieve step that
is fatal.  An exception of the embedding call — which sits outside
retrieve's try block — propagates out of `retrieve`; the retrieve node
catches it and sets the error field, dispatch is skipped (research stays
unset), and the final response is the error response, refuting the claim
as universally stated. -/
theorem retriever_uncaught_failure_counterexample :
    rag_retrieve true (.error "embedding model failure") (.ok ⟨some []⟩) =
      .error "embedding model failure" ∧
    (run_pipeline (rag_retrieve true (.error "embedding model failure") (.ok ⟨some []⟩))
        (.ok ⟨"findings", "the answer", "financial"⟩) "top HY traders").research = none ∧
    (run_pipeline (rag_retrieve true (.error "embedding model failure") (.ok ⟨some []⟩))
        (.ok ⟨"findings", "the answer", "financial"⟩) "top HY traders").final_response =
      some "Error: RAG retrieval failed: embedding model failure" :=
  ⟨rfl, rfl, rfl⟩

theorem format_node_preserves (s : AgentState) :
    (format_node s).error = s.error ∧ (format_node s).research = s.research ∧
      (format_node s).rag_context = s.rag_context := by
  unfold format_node
  cases h : truthy s.error <;> simp [h]

/-- C7 (amended): the failure modes `RAGRetriever.retrieve` itself handles
are not fatal: an unavailable retriever and a raising search call both
make retrieve return the empty list without raising, the retrieve node
stores that empty pre-context without setting the error field, the
pipeline proceeds to dispatch, and the final response is the normal
synthesis output; but an exception on the paths outside retrieve's try
block — the embedding call, or the hit processing on a malformed
response — propagates out of retrieve, the node captures it into the
error field, dispatch is skipped, and the final response is the error
response "Error: RAG retrieval failed: ..." instead. -/
theorem retriever_failure_modes_spec (query : String) (r : OrchestratorResult)
    (encode : Except String Unit) (search : Except String SearchResponse) (e : String)
    (hq : py_strip query ≠ "") :
    rag_retrieve false encode search = .ok [] ∧
    rag_retrieve true (.ok ()) (.error e) = .ok [] ∧
    ((run_pipeline (rag_retrieve true (.ok ()) (.error e)) (.ok r) query).error = none ∧
     (run_pipeline (rag_retrieve true (.ok ()) (.error e)) (.ok r) query).rag_context =
       some [] ∧
     (run_pipeline (rag_retrieve true (.ok ()) (.error e)) (.ok r) query).research =
       some r.research ∧
     (run_pipeline (rag_retrieve true (.ok ()) (.error e)) (.ok r) query).final_response =
       some (r.synthesis ++ sources_block [])) ∧
    (∀ ee, rag_retrieve true (.error ee) search = .error ee ∧
      (run_pipeline (rag_retrieve true (.error ee) search) (.ok r) query).error =
        some ("RAG retrieval failed: " ++ ee) ∧
      (run_pipeline (rag_retrieve true (.error ee) search) (.ok r) query).research = none ∧
      (run_pipeline (rag_retrieve true (.error ee) search) (.ok r) query).final_response =
        some ("Error: " ++ ("RAG retrieval failed: " ++ ee))) ∧
    rag_retrieve true (.ok ()) (.ok ⟨none⟩) = .error "KeyError: hits" := by
  have hs1 : intake_node (initial_state query) =
      { query := py_strip query, rag_context := none, research := none, synthesis := none,
        final_response := none, error := none } := by
    simp [intake_node, initial_state, hq]
  refine ⟨rfl, rfl, ?_, ?_, rfl⟩
  · have h3 : strands_node (.ok r)
          (retrieve_node (rag_retrieve true (.ok ()) (.error e))
            (intake_node (initial_state query))) =
        { query := py_strip query, rag_context := some [], research := some r.research,
          synthesis := some r.synthesis, final_response := none, error := none } := by
      rw [hs1]; rfl
    unfold run_pipeline
    rw [h3]
    refine ⟨rfl, rfl, rfl, ?_⟩
    rw [format_node_ok
      { query := py_strip query, rag_context := some [], research := some r.research,
        synthesis := some r.synthesis, final_response := none, error := none } rfl]
    rfl
  · intro ee
    have h2 : retrieve_node (rag_retrieve true (.error ee) search)
          (intake_node (initial_state query)) =
        { query := py_strip query, rag_context := some [], research := none,
          synthesis := none, final_response := none,
          error := some ("RAG retrieval failed: " ++ ee) } := by
      rw [hs1]; rfl
    have hne : ("RAG retrieval failed: " ++ ee) ≠ "" :=
      ne_empty_of_data (data_append_ne_nil _ _ (by decide))
    have h3 : strands_node (.ok r)
          (retrieve_node (rag_retrieve true (.error ee) search)
            (intake_node (initial_state query))) =
        retrieve_node (rag_retrieve true (.error ee) search)
          (intake_node (initial_state query)) := by
      apply strands_node_skip
      rw [h2]
      exact (truthy_some_iff _).mpr hne
    refine ⟨rfl, ?_, ?_, ?_⟩
    · unfold run_pipeline
      rw [h3, (format_node_preserves _).1, h2]
    · unfold run_pipeline
      rw [h3, (format_node_preserves _).2.1, h2]
    · unfold run_pipeline
      rw [h3]
      exact format_node_error _ _ (by rw [h2]) hne

/-- C7 witness: at a concrete query, a raising search leaves the pipeline
with the normal synthesis response, while a raising embedding call leaves
it with the error response; both through `retriever_failure_modes_spec`. -/
theorem retriever_failure_modes_spec_witness :
    (run_pipeline (rag_retrieve true (.ok ()) (.error "search down"))
        (.ok ⟨"findings", "the answer", "financial"⟩) "top HY traders").final_response =
      some ("the answer" ++ sources_block []) ∧
    (run_pipeline (rag_retrieve true (.error "encode down") (.ok ⟨some []⟩))
        (.ok ⟨"findings", "the answer", "financial"⟩) "top HY traders").final_response =
      some ("Error: " ++ ("RAG retrieval failed: " ++ "encode down")) :=
  ⟨(retriever_failure_modes_spec "top HY traders" ⟨"findings", "the answer", "financial"⟩
      (.ok ()) (.ok ⟨some []⟩) "search down" (by decide)).2.2.1.2.2.2,
   ((retriever_failure_modes_spec "top HY traders" ⟨"findings", "the answer", "financial"⟩
      (.ok ()) (.ok ⟨some []⟩) "search down" (by decide)).2.2.2.1 "encode down").2.2.2⟩

end AgenticAI

namespace AgenticAI

/-! ## Session store (src/api/sessions.py)

Message contents are character lists so that Python `len` is List.length.
Each `save_session` call is one atomic read-modify-write on the persisted
record; `loadOk` is the outcome of the embedded `load_session` (a backend
read fault yields the empty history) and `writeOk` the outcome of the
final `update_item` (a caught fault drops the write). -/

def MAX_MESSAGES : Nat := 20
def MAX_MSG_CHARS : Nat := 1000
def TTL_HOURS : Nat := 24

/-- Embedding of `_truncate`: over-long content is cut at MAX_MSG_CHARS
and an ellipsis character is appended. -/
def _truncate (text : List Char) : List Char :=
  if text.length ≤ MAX_MSG_CHARS then text else text.take MAX_MSG_CHARS ++ ['…']

structure SessionMessage where
  role : String
  content : List Char
deriving DecidableEq, Repr

structure SessionRecord where
  messages : List SessionMessage
  message_count : Nat
  ttl : Nat
deriving DecidableEq, Repr

/-- Embedding of `_ttl()`: absolute expiry now + TTL. -/
def _ttl_at (now : Nat) : Nat := now + TTL_HOURS * 3600

/-- The rotation `current[-MAX_MESSAGES:]` applied when the log overflows. -/
def rotate (l : List SessionMessage) : List SessionMessage :=
  if MAX_MESSAGES < l.length then l.drop (l.length - MAX_MESSAGES) else l

/-- Embedding of `save_session` as the transition on the persisted record:
load the history (empty on read fault), append the truncated turn, rotate,
refresh expiry, bump the counter; a caught write fault drops the write. -/
def save_session (rec : SessionRecord) (loadOk writeOk : Bool)
    (new_user_message assistant_response : List Char) (now : Nat) : SessionRecord :=
  if writeOk then
    let current := if loadOk then rec.messages else []
    let appended := current ++
      [⟨"user", _truncate new_user_message⟩, ⟨"assistant", _truncate assistant_response⟩]
    { messages := rotate appended, message_count := rec.message_count + 1, ttl := _ttl_at now }
  else rec

/-- A fresh record as `create_session` persists it. -/
def fresh_session (now : Nat) : SessionRecord :=
  { messages := [], message_count := 0, ttl := _ttl_at now }

/-- One `save_session` call with its backend outcomes. -/
structure SaveOp where
  loadOk : Bool
  writeOk : Bool
  userMsg : List Char
  assistantMsg : List Char
  now : Nat

def run_saves (rec : SessionRecord) (ops : List SaveOp) : SessionRecord :=
  ops.foldl (fun r op => save_session r op.loadOk op.writeOk op.userMsg op.assistantMsg op.now) rec

theorem truncate_length_le (t : List Char) : (_truncate t).length ≤ MAX_MSG_CHARS + 1 := by
  unfold _truncate
  by_cases h : t.length ≤ MAX_MSG_CHARS
  · simpa [h] using Nat.le_succ_of_le h
  · have hlt : MAX_MSG_CHARS < t.length := Nat.lt_of_not_le h
    simp [h, List.length_take, Nat.min_eq_left (Nat.le_of_lt hlt)]

theorem rotate_length_le (l : List SessionMessage) :
    (rotate l).length ≤ MAX_MESSAGES := by
  unfold rotate
  by_cases hlt : MAX_MESSAGES < l.length
  · simp only [hlt, if_true, List.length_drop]
    omega
  · simpa [hlt] using Nat.le_of_not_lt hlt

theorem mem_rotate (l : List SessionMessage) (m : SessionMessage) (h : m ∈ rotate l) : m ∈ l := by
  unfold rotate at h
  by_cases hlt : MAX_MESSAGES < l.length
  · simp only [hlt, if_true] at h
    exact List.mem_of_mem_drop h
  · simpa [hlt] using h

theorem save_session_invariant (rec : SessionRecord) (loadOk writeOk : Bool)
    (u a : List Char) (now : Nat)
    (hlen : rec.messages.length ≤ MAX_MESSAGES)
    (hrec : ∀ m ∈ rec.messages, m.content.length ≤ MAX_MSG_CHARS + 1) :
    (save_session rec loadOk writeOk u a now).messages.length ≤ MAX_MESSAGES ∧
      ∀ m ∈ (save_session rec loadOk writeOk u a now).messages,
        m.content.length ≤ MAX_MSG_CHARS + 1 := by
  unfold save_session
  by_cases hw : writeOk = true
  · simp only [hw, if_true]
    refine ⟨rotate_length_le _, ?_⟩
    intro m hm
    have hmem := mem_rotate _ _ hm
    rcases List.mem_append.mp hmem with hold | hnew
    · by_cases hl : loadOk = true
      · exact hrec m (by simpa [hl] using hold)
      · simp [hl] at hold
    · simp only [List.mem_cons, List.not_mem_nil, or_false] at hnew
      rcases hnew with h1 | h2
      · rw [h1]
        exact truncate_length_le u
      · rw [h2]
        exact truncate_length_le a
  · simp only [hw, Bool.false_eq_true, if_false]
    exact ⟨hlen, hrec⟩

end AgenticAI

namespace AgenticAI

/-- C5 counterexample: the claim's per-message bound fails as stated.  One
save of a 1001-character user message into a fresh session (defaults
MAX_MSG_CHARS = 1000) stores a content of 1001 characters: `_truncate`
cuts at 1000 characters and then appends the one-character ellipsis, so
the stored content exceeds MAX_MSG_CHARS. -/
theorem save_session_truncation_counterexample :
    ((save_session (fresh_session 0) true true (List.replicate 1001 'a') [] 5).messages.map
        (fun m => m.content.length)) = [1001, 0] ∧ MAX_MSG_CHARS = 1000 := by
  have htr : _truncate (List.replicate 1001 'a') =
      (List.replicate 1001 'a').take MAX_MSG_CHARS ++ ['…'] := by
    unfold _truncate
    rw [List.length_replicate]
    exact if_neg (by decide)
  have htrlen : (_truncate (List.replicate 1001 'a')).length = 1001 := by
    rw [htr, List.length_append, List.length_take, List.length_replicate]
    decide
  have hmsgs : (save_session (fresh_session 0) true true (List.replicate 1001 'a') [] 5).messages
      = [⟨"user", _truncate (List.replicate 1001 'a')⟩, ⟨"assistant", _truncate []⟩] := rfl
  constructor
  · rw [hmsgs]
    simp only [List.map_cons, List.map_nil]
    rw [htrlen]
    rfl
  · rfl

theorem run_saves_invariant (ops : List SaveOp) :
    ∀ rec : SessionRecord,
      rec.messages.length ≤ MAX_MESSAGES →
      (∀ m ∈ rec.messages, m.content.length ≤ MAX_MSG_CHARS + 1) →
      (run_saves rec ops).messages.length ≤ MAX_MESSAGES ∧
        ∀ m ∈ (run_saves rec ops).messages, m.content.length ≤ MAX_MSG_CHARS + 1 := by
  induction ops with
  | nil => exact fun rec h1 h2 => ⟨h1, h2⟩
  | cons op ops ih =>
    intro rec h1 h2
    have hstep := save_session_invariant rec op.loadOk op.writeOk op.userMsg op.assistantMsg op.now h1 h2
    exact ih _ hstep.1 hstep.2

/-- C5 (amended): for every session and every sequence of save_session
operations starting from a fresh record, the persisted message log always
has at most MAX_MESSAGES entries (oldest rotated out), and every stored
message content is at most MAX_MSG_CHARS + 1 characters long: over-long
content is truncated to MAX_MSG_CHARS characters and a one-character
ellipsis sentinel is appended, so a truncated content occupies exactly
MAX_MSG_CHARS + 1 characters; expiry is refreshed to now + TTL on each
performed write. -/
theorem session_log_invariants (now0 : Nat) (ops : List SaveOp) :
    (run_saves (fresh_session now0) ops).messages.length ≤ MAX_MESSAGES ∧
    (∀ m ∈ (run_saves (fresh_session now0) ops).messages,
        m.content.length ≤ MAX_MSG_CHARS + 1) ∧
    (∀ rec : SessionRecord, ∀ loadOk : Bool, ∀ u a : List Char, ∀ now : Nat,
        (save_session rec loadOk true u a now).ttl = now + TTL_HOURS * 3600) ∧
    (∀ t : List Char, MAX_MSG_CHARS < t.length →
        _truncate t = t.take MAX_MSG_CHARS ++ ['…'] ∧
          (_truncate t).length = MAX_MSG_CHARS + 1) := by
  have hbase := run_saves_invariant ops (fresh_session now0) (by simp [fresh_session])
    (by intro m hm; simp [fresh_session] at hm)
  refine ⟨hbase.1, hbase.2, ?_, ?_⟩
  · intro rec loadOk u a now
    rfl
  · intro t ht
    have hnot : ¬ t.length ≤ MAX_MSG_CHARS := Nat.not_le_of_lt ht
    constructor
    · simp [_truncate, hnot]
    · simp [_truncate, hnot, List.length_take, Nat.min_eq_left (Nat.le_of_lt ht)]

/-- C5 witness: the invariants applied to one concrete save of an
over-long message: exact truncated length 1001 and the refreshed expiry. -/
theorem session_log_invariants_witness :
    (run_saves (fresh_session 0) [⟨true, true, List.replicate 1001 'a', [], 7⟩]).messages.length
      ≤ MAX_MESSAGES ∧
    (_truncate (List.replicate 1001 'a')).length = MAX_MSG_CHARS + 1 ∧
    (save_session (fresh_session 0) true true [] [] 7).ttl = 7 + TTL_HOURS * 3600 :=
  ⟨(session_log_invariants 0 [⟨true, true, List.replicate 1001 'a', [], 7⟩]).1,
   ((session_log_invariants 0 []).2.2.2 (List.replicate 1001 'a')
      (by rw [List.length_replicate]; decide)).2,
   (session_log_invariants 0 []).2.2.1 (fresh_session 0) true [] [] 7⟩

end AgenticAI

namespace AgenticAI

/-! ## Request gateway session binding (src/api/server.py, chat_completions;
src/api/sessions.py, create_session / load_session / build_context_string)

sessions.py catches only botocore's ClientError; a BotoCoreError (for
example EndpointConnectionError when DynamoDB is unreachable) propagates
out of create_session and load_session.  The backend condition is the
`StoreFault` input.  The fire-and-forget save_session call is scheduled on
the executor without being awaited, so it can never fail the request and
does not appear in the returned value. -/

inductive StoreFault where
  | healthy
  | clientError
  | botoCoreError
deriving DecidableEq, Repr

/-- Embedding of `create_session`: the id is minted before the write; a
ClientError on the write is caught and the id still returned; a
BotoCoreError is not caught and propagates. -/
def create_session (uuidHex : String) (fault : StoreFault) : Except String String :=
  match fault with
  | .botoCoreError => .error "botocore.exceptions.EndpointConnectionError"
  | _ => .ok ("sess-" ++ uuidHex.take 16)

/-- Embedding of `load_session`: a caught ClientError yields the empty
history; a BotoCoreError propagates. -/
def load_session (stored : List SessionMessage) (fault : StoreFault) :
    Except String (List SessionMessage) :=
  match fault with
  | .botoCoreError => .error "botocore.exceptions.EndpointConnectionError"
  | .clientError => .ok []
  | .healthy => .ok stored

/-- Embedding of `build_context_string`. -/
def build_context_string (messages : List SessionMessage) : String :=
  if messages = [] then ""
  else
    String.intercalate "\n"
      ("[Conversation History — previous turns in this session]" ::
        messages.map (fun m =>
          (if m.role = "user" then "Trader" else "System") ++ ": " ++ String.mk m.content))

structure ChatOutcome where
  session_id : String
  content : String
deriving DecidableEq, Repr

/-- Embedding of the session-relevant slice of `chat_completions`: resolve
the session (incoming id if truthy, else create), load history for an
existing session, enrich the query with the rendered context, run the
pipeline, and return content plus session id.  An uncaught store exception
makes the whole request fail. -/
def chat_completions (reqSessionId : Option String) (userMessage : String) (uuidHex : String)
    (fault : StoreFault) (stored : List SessionMessage) (pipeline : String → String) :
    Except String ChatOutcome :=
  if userMessage = "" then
    match reqSessionId with
    | some s =>
      if s = "" then (create_session uuidHex fault).map (fun sid => ⟨sid, "No user message found."⟩)
      else Except.ok ⟨s, "No user message found."⟩
    | none => (create_session uuidHex fault).map (fun sid => ⟨sid, "No user message found."⟩)
  else
    let sidHistory : Except String (String × List SessionMessage) :=
      match reqSessionId with
      | some s =>
        if s = "" then (create_session uuidHex fault).map (fun sid => (sid, []))
        else (load_session stored fault).map (fun h => (s, h))
      | none => (create_session uuidHex fault).map (fun sid => (sid, []))
    sidHistory.map (fun p =>
      let ctx := build_context_string p.2
      let enriched := if ctx = "" then userMessage
        else ctx ++ "\n\n[Current Query]\n" ++ userMessage
      ⟨p.1, pipeline enriched⟩)

/-- C6: evaluation at the failing input.  When the session backend raises a
BotoCoreError (DynamoDB unreachable), `create_session` and `load_session`
propagate it — sessions.py catches only ClientError — and the request
fails instead of returning a response with a session id; under a
ClientError fault the claimed behavior does hold: a fresh usable id is
returned unpersisted, the load yields the empty history, and the request
succeeds with a non-empty session id. -/
theorem chat_completions_botocore_fault_propagates :
    chat_completions none "top HY traders" "0123456789abcdef99" .botoCoreError [] (fun q => q)
      = .error "botocore.exceptions.EndpointConnectionError" ∧
    chat_completions (some "sess-live") "top HY traders" "x" .botoCoreError
        [⟨"user", ['h', 'i']⟩] (fun q => q)
      = .error "botocore.exceptions.EndpointConnectionError" ∧
    chat_completions none "top HY traders" "0123456789abcdef99" .clientError [] (fun q => q)
      = .ok ⟨"sess-0123456789abcdef", "top HY traders"⟩ ∧
    chat_completions (some "sess-live") "top HY traders" "x" .clientError
        [⟨"user", ['h', 'i']⟩] (fun q => q)
      = .ok ⟨"sess-live", "top HY traders"⟩ ∧
    ("sess-0123456789abcdef" : String) ≠ "" := by
  refine ⟨rfl, rfl, rfl, rfl, by decide⟩

end AgenticAI

namespace AgenticAI

/-! ## Streaming generator (src/api/server.py, _stream_response)

Python `content.split(" ")` on character lists, and the emitted SSE chunk
sequence: a meta chunk carrying the session id, one chunk per token (each
token after the first re-prefixed with one space), a finish chunk with
finish_reason "stop", and the literal DONE sentinel line. -/

/-- Python `str.split(" ")`: split on every single space, keeping empty
fields (so consecutive spaces produce empty tokens). -/
def split_on_space : List Char → List (List Char)
  | [] => [[]]
  | c :: rest =>
    match split_on_space rest with
    | [] => [[c]]
    | w :: ws => if c = ' ' then [] :: w :: ws else (c :: w) :: ws

/-- The delta.content payloads the generator emits: the first token as is,
every later token with one space re-prefixed. -/
def stream_deltas (content : List Char) : List (List Char) :=
  match split_on_space content with
  | [] => []
  | w :: ws => w :: ws.map (fun x => ' ' :: x)

/-- One server-sent event: an OpenAI chunk (delta role, delta content,
finish_reason, session id extension) or the literal DONE sentinel. -/
inductive SseEvent where
  | chunk (delta_role : Option String) (delta_content : Option (List Char))
      (finish_reason : Option String) (session_id : Option String)
  | doneSentinel
deriving DecidableEq, Repr

/-- Embedding of `_stream_response`. -/
def _stream_response (content : List Char) (session_id : String) : List SseEvent :=
  SseEvent.chunk (some "assistant") none none (some session_id) ::
    ((stream_deltas content).map (fun t => SseEvent.chunk none (some t) none none) ++
      [SseEvent.chunk none none (some "stop") none, SseEvent.doneSentinel])

/-- The delta.content fields of a stream, in order. -/
def delta_texts : List SseEvent → List (List Char)
  | [] => []
  | SseEvent.chunk _ (some t) _ _ :: rest => t :: delta_texts rest
  | SseEvent.chunk _ none _ _ :: rest => delta_texts rest
  | SseEvent.doneSentinel :: rest => delta_texts rest

theorem split_on_space_ne_nil (l : List Char) : split_on_space l ≠ [] := by
  cases l with
  | nil => simp [split_on_space]
  | cons c rest =>
    unfold split_on_space
    cases h : split_on_space rest with
    | nil => simp
    | cons w ws =>
      by_cases hc : c = ' ' <;> simp [hc]

theorem stream_deltas_join (l : List Char) : (stream_deltas l).flatten = l := by
  induction l with
  | nil => rfl
  | cons c rest ih =>
    cases h : split_on_space rest with
    | nil => exact absurd h (split_on_space_ne_nil rest)
    | cons w ws =>
      have ihj : w ++ (ws.map (fun x => ' ' :: x)).flatten = rest := by
        have := ih
        rw [stream_deltas, h] at this
        simpa using this
      by_cases hc : c = ' '
      · have hsplit : split_on_space (c :: rest) = [] :: w :: ws := by
          rw [split_on_space.eq_def]
          simp only [h, hc, if_true]
        rw [stream_deltas, hsplit]
        subst hc
        simp [ihj]
      · have hsplit : split_on_space (c :: rest) = (c :: w) :: ws := by
          rw [split_on_space.eq_def]
          simp only [h]
          simp [hc]
        rw [stream_deltas, hsplit]
        simp [ihj]

theorem delta_texts_map_chunks (l : List (List Char)) :
    delta_texts (l.map (fun t => SseEvent.chunk none (some t) none none)) = l := by
  induction l with
  | nil => rfl
  | cons t ts ih => simp [delta_texts, ih]

theorem delta_texts_append (a b : List SseEvent) :
    delta_texts (a ++ b) = delta_texts a ++ delta_texts b := by
  induction a with
  | nil => rfl
  | cons e rest ih =>
    cases e with
    | chunk dr dc fr sid =>
      cases dc with
      | none => simpa [delta_texts] using ih
      | some t => simp [delta_texts, ih]
    | doneSentinel => simpa [delta_texts] using ih

/-- C10: concatenating the delta.content fields of all chunks emitted by
the streaming generator reproduces the response content exactly — the
split on single spaces plus the one-space re-prefix of every later token
loses no characters, including runs of consecutive spaces — and the
stream always ends with a chunk whose finish_reason is "stop" followed by
the literal DONE sentinel. -/
theorem stream_response_roundtrip (content : List Char) (sid : String) :
    (delta_texts (_stream_response content sid)).flatten = content ∧
    _stream_response content sid =
      (SseEvent.chunk (some "assistant") none none (some sid) ::
        (stream_deltas content).map (fun t => SseEvent.chunk none (some t) none none)) ++
      [SseEvent.chunk none none (some "stop") none, SseEvent.doneSentinel] := by
  constructor
  · have h1 : delta_texts (_stream_response content sid) = stream_deltas content := by
      unfold _stream_response
      rw [show delta_texts (SseEvent.chunk (some "assistant") none none (some sid) ::
            ((stream_deltas content).map (fun t => SseEvent.chunk none (some t) none none) ++
              [SseEvent.chunk none none (some "stop") none, SseEvent.doneSentinel]))
          = delta_texts ((stream_deltas content).map
              (fun t => SseEvent.chunk none (some t) none none) ++
            [SseEvent.chunk none none (some "stop") none, SseEvent.doneSentinel]) from rfl]
      rw [delta_texts_append, delta_texts_map_chunks]
      simp [delta_texts]
    rw [h1]
    exact stream_deltas_join content
  · simp [_stream_response]

end AgenticAI
